import Mathlib

/-!
# Verification of the roadmap document store

A shallow embedding of the client-side roadmap document model (`types.ts`)
and its store operations (`store.ts`).  TypeScript optional fields become
`Option`, arrays become `List`, JS timestamps (`new Date().toISOString()`)
and generated ids (`nanoid()`) become explicit `String` parameters.  Each
store operation is a pure function from the loaded document (`RoadmapData`)
to the next document, mirroring the immutable-update style of the source.
-/

namespace Roadmap

/-- `type Stage = 'old' | 'recent' | 'short-term' | 'long-term'` -/
inductive Stage where
  | old
  | recent
  | shortTerm
  | longTerm
deriving DecidableEq, Repr

/-- `type ItemType = 'milestone' | 'blocker' | 'goal' | 'output'` -/
inductive ItemType where
  | milestone
  | blocker
  | goal
  | output
deriving DecidableEq, Repr

/-- `type BlockerStatus = 'open' | 'mitigated' | 'resolved'` -/
inductive BlockerStatus where
  | open'
  | mitigated
  | resolved
deriving DecidableEq, Repr

/-- `type SubViewType = 'tasks' | 'kanban' | 'roadmap'` -/
inductive SubViewType where
  | tasks
  | kanban
  | roadmap
deriving DecidableEq, Repr

/-- `type Priority = 'critical' | 'high' | 'medium' | 'low'` -/
inductive Priority where
  | critical
  | high
  | medium
  | low
deriving DecidableEq, Repr

/-- `interface StatusTag` -/
structure StatusTag where
  id : String
  label : String
  color : String
deriving DecidableEq, Repr

/-- `DEFAULT_STATUS_TAGS` from `types.ts` -/
def DEFAULT_STATUS_TAGS : List StatusTag :=
  [ ⟨"not-started", "Not Started", "#6B7280"⟩,
    ⟨"in-progress", "In Progress", "#3B82F6"⟩,
    ⟨"blocked", "Blocked", "#EF4444"⟩,
    ⟨"in-review", "In Review", "#F59E0B"⟩,
    ⟨"done", "Done", "#10B981"⟩ ]

/-- `interface SubStage` -/
structure SubStage where
  id : String
  label : String
  order : Int
deriving DecidableEq, Repr

/-- `DEFAULT_SUB_STAGES` from `types.ts` -/
def DEFAULT_SUB_STAGES : List SubStage :=
  [ ⟨"done", "Done", 0⟩,
    ⟨"in-progress", "In Progress", 1⟩,
    ⟨"up-next", "Up Next", 2⟩,
    ⟨"backlog", "Backlog", 3⟩ ]

/-- `interface SubSwimlane` -/
structure SubSwimlane where
  id : String
  name : String
  color : String
  order : Int
deriving DecidableEq, Repr

/-- `type` field of `ExternalLink` -/
inductive LinkType where
  | gdoc
  | slack
  | github
  | publication
  | presentation
  | data
  | other
deriving DecidableEq, Repr

/-- `interface ExternalLink` -/
structure ExternalLink where
  id : String
  url : String
  label : String
  type : Option LinkType
deriving DecidableEq, Repr

/-- `interface SubItem` -/
structure SubItem where
  id : String
  title : String
  description : Option String
  completed : Bool
  priority : Option Priority
  statusTagId : Option String
  subStageId : Option String
  subSwimlaneId : Option String
  order : Int
  links : Option (List ExternalLink)
deriving DecidableEq, Repr

/-- `interface SubItemConfig` -/
structure SubItemConfig where
  viewType : SubViewType
  customStages : Option (List SubStage)
  customSwimlanes : Option (List SubSwimlane)
  customStatusTags : Option (List StatusTag)
deriving DecidableEq, Repr

/-- `interface CheckIn` -/
structure CheckIn where
  id : String
  label : String
  completed : Bool
deriving DecidableEq, Repr

/-- `type ChangeType` -/
inductive ChangeType where
  | created
  | completed
  | archived
  | unarchived
  | statusChanged
  | stageChanged
  | linkAdded
  | subitemAdded
  | subitemCompleted
  | markedWin
  | outputAdded
deriving DecidableEq, Repr

/-- the `metadata` field of `ChangeLogEntry` -/
structure ChangeLogMetadata where
  fromValue : Option String
  toValue : Option String
  linkLabel : Option String
  subItemTitle : Option String
deriving DecidableEq, Repr

/-- `interface ChangeLogEntry` -/
structure ChangeLogEntry where
  id : String
  type : ChangeType
  timestamp : String
  description : String
  metadata : Option ChangeLogMetadata
deriving DecidableEq, Repr

/-- `interface RoadmapItem` -/
structure RoadmapItem where
  id : String
  type : ItemType
  title : String
  description : Option String
  stage : Stage
  swimlaneId : String
  reportedDate : Option String
  targetDate : Option String
  checkIns : Option (List CheckIn)
  blockerStatus : Option BlockerStatus
  dependsOn : Option (List String)
  enables : Option (List String)
  links : Option (List ExternalLink)
  outputIds : Option (List String)
  completed : Option Bool
  order : Option Int
  isWin : Option Bool
  archived : Option Bool
  subItems : Option (List SubItem)
  subItemConfig : Option SubItemConfig
  itemLastUpdated : Option String
  changeLog : Option (List ChangeLogEntry)
deriving DecidableEq, Repr

/-- `interface Swimlane` -/
structure Swimlane where
  id : String
  name : String
  color : String
  order : Int
deriving DecidableEq, Repr

/-- `interface RoadmapData` -/
structure RoadmapData where
  title : String
  lastUpdated : String
  swimlanes : List Swimlane
  items : List RoadmapItem
deriving DecidableEq, Repr

/-- `interface FilterState` -/
structure FilterState where
  swimlanes : List String
  stages : List Stage
  types : List ItemType
  blockerStatus : List BlockerStatus
  showCompleted : Bool
  searchQuery : String
deriving DecidableEq, Repr

/-- `defaultFilters` from `store.ts` -/
def defaultFilters : FilterState :=
  { swimlanes := [], stages := [], types := [], blockerStatus := [],
    showCompleted := true, searchQuery := "" }

/-! ## Store helpers -/

/-- JS `array.slice(-2)`: the (at most) two last elements. -/
def lastTwo {α : Type} (l : List α) : List α := l.drop (l.length - 2)

/-- `addChangeLog` from `store.ts`: appends an entry and keeps only the last
2 entries.  The `nanoid()` and `new Date().toISOString()` of the source
become the explicit `id` and `timestamp` parameters. -/
def addChangeLog (item : RoadmapItem) (type : ChangeType) (description : String)
    (metadata : Option ChangeLogMetadata) (id timestamp : String) : RoadmapItem :=
  let entry : ChangeLogEntry :=
    { id := id, type := type, timestamp := timestamp,
      description := description, metadata := metadata }
  let existingLog := item.changeLog.getD []
  let newLog := lastTwo (existingLog ++ [entry])
  { item with changeLog := some newLog }

/-- The `stageLabels` record literal inside `updateItem`. -/
def stageLabels : Stage → String
  | .old => "Past"
  | .recent => "Recent"
  | .shortTerm => "Short-term"
  | .longTerm => "Long-term"

/-- The string form of a `BlockerStatus` union value. -/
def bsString : BlockerStatus → String
  | .open' => "open"
  | .mitigated => "mitigated"
  | .resolved => "resolved"

/-- `Partial<RoadmapItem>`: a field that is `none` is absent from the
partial-update object; `some v` is a present field (for item fields that are
themselves optional, `some none` is a field explicitly set to `undefined`). -/
structure ItemUpdates where
  id : Option String := none
  type : Option ItemType := none
  title : Option String := none
  description : Option (Option String) := none
  stage : Option Stage := none
  swimlaneId : Option String := none
  reportedDate : Option (Option String) := none
  targetDate : Option (Option String) := none
  checkIns : Option (Option (List CheckIn)) := none
  blockerStatus : Option (Option BlockerStatus) := none
  dependsOn : Option (Option (List String)) := none
  enables : Option (Option (List String)) := none
  links : Option (Option (List ExternalLink)) := none
  outputIds : Option (Option (List String)) := none
  completed : Option (Option Bool) := none
  order : Option (Option Int) := none
  isWin : Option (Option Bool) := none
  archived : Option (Option Bool) := none
  subItems : Option (Option (List SubItem)) := none
  subItemConfig : Option (Option SubItemConfig) := none
  itemLastUpdated : Option (Option String) := none
  changeLog : Option (Option (List ChangeLogEntry)) := none
deriving DecidableEq, Repr

/-- JS object spread `{ ...i, ...updates }`. -/
def applyItemUpdates (i : RoadmapItem) (u : ItemUpdates) : RoadmapItem :=
  { id := u.id.getD i.id,
    type := u.type.getD i.type,
    title := u.title.getD i.title,
    description := u.description.getD i.description,
    stage := u.stage.getD i.stage,
    swimlaneId := u.swimlaneId.getD i.swimlaneId,
    reportedDate := u.reportedDate.getD i.reportedDate,
    targetDate := u.targetDate.getD i.targetDate,
    checkIns := u.checkIns.getD i.checkIns,
    blockerStatus := u.blockerStatus.getD i.blockerStatus,
    dependsOn := u.dependsOn.getD i.dependsOn,
    enables := u.enables.getD i.enables,
    links := u.links.getD i.links,
    outputIds := u.outputIds.getD i.outputIds,
    completed := u.completed.getD i.completed,
    order := u.order.getD i.order,
    isWin := u.isWin.getD i.isWin,
    archived := u.archived.getD i.archived,
    subItems := u.subItems.getD i.subItems,
    subItemConfig := u.subItemConfig.getD i.subItemConfig,
    itemLastUpdated := u.itemLastUpdated.getD i.itemLastUpdated,
    changeLog := u.changeLog.getD i.changeLog }

/-- `Partial<SubItem>` for `updateSubItem`. -/
structure SubItemUpdates where
  id : Option String := none
  title : Option String := none
  description : Option (Option String) := none
  completed : Option Bool := none
  priority : Option (Option Priority) := none
  statusTagId : Option (Option String) := none
  subStageId : Option (Option String) := none
  subSwimlaneId : Option (Option String) := none
  order : Option Int := none
  links : Option (Option (List ExternalLink)) := none
deriving DecidableEq, Repr

/-- JS object spread `{ ...s, ...updates }` for sub-items. -/
def applySubItemUpdates (s : SubItem) (u : SubItemUpdates) : SubItem :=
  { id := u.id.getD s.id,
    title := u.title.getD s.title,
    description := u.description.getD s.description,
    completed := u.completed.getD s.completed,
    priority := u.priority.getD s.priority,
    statusTagId := u.statusTagId.getD s.statusTagId,
    subStageId := u.subStageId.getD s.subStageId,
    subSwimlaneId := u.subSwimlaneId.getD s.subSwimlaneId,
    order := u.order.getD s.order,
    links := u.links.getD s.links }

/-! ## Store operations

Every operation below is the body of the corresponding `store.ts` action in
the loaded-document case (`if (data) { ... }`); with no loaded document the
source leaves the state unchanged, which needs no model of its own. -/

/-- `loadData` (`now` models `new Date().toISOString()`). -/
def loadData (d : RoadmapData) (now : String) : RoadmapData :=
  { d with lastUpdated := now }

/-- Per-item mapping function of `updateItem`.  `g1`–`g4` are the
`(nanoid, timestamp)` pairs of the up-to-four `addChangeLog` calls. -/
def updateItemFn (id : String) (u : ItemUpdates) (now : String)
    (g1 g2 g3 g4 : String × String) (i : RoadmapItem) : RoadmapItem :=
  if i.id ≠ id then i else
  let updated := { applyItemUpdates i u with itemLastUpdated := some now }
  let updated :=
    match u.completed with
    | some (some b) =>
        if some b ≠ i.completed ∧ b = true then
          addChangeLog updated .completed "Marked as completed" none g1.1 g1.2
        else updated
    | _ => updated
  let updated :=
    match u.isWin with
    | some (some b) =>
        if b = true ∧ i.isWin ≠ some true then
          addChangeLog updated .markedWin "Highlighted as a win" none g2.1 g2.2
        else updated
    | _ => updated
  let updated :=
    match u.stage with
    | some s =>
        if s ≠ i.stage then
          addChangeLog updated .stageChanged ("Moved to " ++ stageLabels s)
            (some { fromValue := some (stageLabels i.stage),
                    toValue := some (stageLabels s),
                    linkLabel := none, subItemTitle := none }) g3.1 g3.2
        else updated
    | none => updated
  let updated :=
    match u.blockerStatus with
    | some (some bs) =>
        if some bs ≠ i.blockerStatus then
          addChangeLog updated .statusChanged ("Status changed to " ++ bsString bs)
            (some { fromValue := i.blockerStatus.map bsString,
                    toValue := some (bsString bs),
                    linkLabel := none, subItemTitle := none }) g4.1 g4.2
        else updated
    | _ => updated
  updated

/-- `updateItem`. -/
def updateItem (id : String) (u : ItemUpdates) (now : String)
    (g1 g2 g3 g4 : String × String) (d : RoadmapData) : RoadmapData :=
  { d with items := d.items.map (updateItemFn id u now g1 g2 g3 g4),
           lastUpdated := now }

/-- `deleteItem`: removes the item and scrubs its id from every other
item's `dependsOn`, `enables` and `outputIds`. -/
def deleteItem (id : String) (now : String) (d : RoadmapData) : RoadmapData :=
  { d with
    items := (d.items.filter (fun i => i.id ≠ id)).map (fun i =>
      { i with
        dependsOn := i.dependsOn.map (List.filter (fun dep => dep ≠ id)),
        enables := i.enables.map (List.filter (fun e => e ≠ id)),
        outputIds := i.outputIds.map (List.filter (fun o => o ≠ id)) }),
    lastUpdated := now }

/-- Per-item mapping function of `archiveItem`. -/
def archiveItemFn (id now cid cts : String) (i : RoadmapItem) : RoadmapItem :=
  if i.id ≠ id then i
  else
    addChangeLog
      { i with archived := some true, completed := some true,
               itemLastUpdated := some now }
      .archived "Archived" none cid cts

/-- `archiveItem`. -/
def archiveItem (id now cid cts : String) (d : RoadmapData) : RoadmapData :=
  { d with items := d.items.map (archiveItemFn id now cid cts),
           lastUpdated := now }

/-- Per-item mapping function of `unarchiveItem`. -/
def unarchiveItemFn (id now cid cts : String) (i : RoadmapItem) : RoadmapItem :=
  if i.id ≠ id then i
  else
    addChangeLog
      { i with archived := some false, itemLastUpdated := some now }
      .unarchived "Restored from archive" none cid cts

/-- `unarchiveItem`. -/
def unarchiveItem (id now cid cts : String) (d : RoadmapData) : RoadmapData :=
  { d with items := d.items.map (unarchiveItemFn id now cid cts),
           lastUpdated := now }

/-- Per-item mapping function of `addDependency`.  The two `if` blocks of
the source both fall through when their inner membership test fails, hence
the two guarded branches below. -/
def addDependencyFn (fromId toId : String) (i : RoadmapItem) : RoadmapItem :=
  if i.id = fromId ∧ toId ∉ i.dependsOn.getD [] then
    { i with dependsOn := some (i.dependsOn.getD [] ++ [toId]) }
  else if i.id = toId ∧ fromId ∉ i.enables.getD [] then
    { i with enables := some (i.enables.getD [] ++ [fromId]) }
  else i

/-- `addDependency`. -/
def addDependency (fromId toId now : String) (d : RoadmapData) : RoadmapData :=
  { d with items := d.items.map (addDependencyFn fromId toId),
           lastUpdated := now }

/-- Per-item mapping function of `removeDependency`. -/
def removeDependencyFn (fromId toId : String) (i : RoadmapItem) : RoadmapItem :=
  if i.id = fromId then
    { i with dependsOn := i.dependsOn.map (List.filter (fun dep => dep ≠ toId)) }
  else if i.id = toId then
    { i with enables := i.enables.map (List.filter (fun e => e ≠ fromId)) }
  else i

/-- `removeDependency`. -/
def removeDependency (fromId toId now : String) (d : RoadmapData) : RoadmapData :=
  { d with items := d.items.map (removeDependencyFn fromId toId),
           lastUpdated := now }

/-- `addCheckIn` (`cid` models the `nanoid()` of the new check-in). -/
def addCheckIn (itemId label cid now : String) (d : RoadmapData) : RoadmapData :=
  let newCheckIn : CheckIn := { id := cid, label := label, completed := false }
  { d with
    items := d.items.map (fun i =>
      if i.id = itemId then
        { i with checkIns := some (i.checkIns.getD [] ++ [newCheckIn]) }
      else i),
    lastUpdated := now }

/-- `addSubItem` (`nid` is the new sub-item's `nanoid()`, `clid`/`clts` the
id and timestamp of the change-log entry). -/
def addSubItem (itemId title nid now clid clts : String) (d : RoadmapData) :
    RoadmapData :=
  let item := d.items.find? (fun i => i.id = itemId)
  let existingSubItems := (item.bind (·.subItems)).getD []
  let newSubItem : SubItem :=
    { id := nid, title := title, description := none, completed := false,
      priority := none, statusTagId := none, subStageId := some "backlog",
      subSwimlaneId := none, order := (existingSubItems.length : Int),
      links := none }
  let subItemConfig := (item.bind (·.subItemConfig)).getD
    { viewType := .tasks, customStages := some DEFAULT_SUB_STAGES,
      customSwimlanes := none, customStatusTags := some DEFAULT_STATUS_TAGS }
  { d with
    items := d.items.map (fun i =>
      if i.id ≠ itemId then i
      else
        addChangeLog
          { i with subItems := some (existingSubItems ++ [newSubItem]),
                   subItemConfig := some subItemConfig,
                   itemLastUpdated := some now }
          .subitemAdded ("Sub-item added: " ++ title)
          (some { fromValue := none, toValue := none, linkLabel := none,
                  subItemTitle := some title }) clid clts),
    lastUpdated := now }

/-- `updateSubItem`. -/
def updateSubItem (itemId subItemId : String) (u : SubItemUpdates)
    (now : String) (d : RoadmapData) : RoadmapData :=
  { d with
    items := d.items.map (fun i =>
      if i.id = itemId then
        { i with subItems := i.subItems.map (List.map (fun s =>
            if s.id = subItemId then applySubItemUpdates s u else s)) }
      else i),
    lastUpdated := now }

/-- Per-item mapping function of `deleteSubStage`.  Note that the new
`subStageId` of relocated sub-items is read from the original
`i.subItemConfig?.customStages?.[0]?.id`, i.e. the stage list before
filtering. -/
def deleteSubStageFn (itemId stageId : String) (i : RoadmapItem) : RoadmapItem :=
  match i.subItemConfig with
  | none => i
  | some cfg =>
    match cfg.customStages with
    | none => i
    | some cs =>
      if i.id ≠ itemId then i
      else
        { i with
          subItemConfig := some
            { cfg with customStages := some (cs.filter (fun s => s.id ≠ stageId)) },
          subItems := i.subItems.map (List.map (fun sub =>
            if sub.subStageId = some stageId then
              { sub with subStageId := cs.head?.map (·.id) }
            else sub)) }

/-- `deleteSubStage`. -/
def deleteSubStage (itemId stageId now : String) (d : RoadmapData) : RoadmapData :=
  { d with items := d.items.map (deleteSubStageFn itemId stageId),
           lastUpdated := now }

/-! ## Derivation functions -/

/-- JS `array.sort((a, b) => a.order - b.order)`: a stable sort by `order`,
modelled by stable insertion sort. -/
def jsSortSubStages (l : List SubStage) : List SubStage :=
  List.insertionSort (fun a b => a.order ≤ b.order) l

/-- JS `array.sort((a, b) => a.order - b.order)` for swimlanes. -/
def jsSortSwimlanes (l : List Swimlane) : List Swimlane :=
  List.insertionSort (fun a b => a.order ≤ b.order) l

/-- `getSubStages`. -/
def getSubStages (itemId : String) (d : RoadmapData) : List SubStage :=
  match ((d.items.find? (fun i => i.id = itemId)).bind
      (·.subItemConfig)).bind (·.customStages) with
  | none => DEFAULT_SUB_STAGES
  | some cs => jsSortSubStages cs

/-- JS `Set.add`: insert-if-absent on the modelled id set. -/
def setAdd (s : List String) (x : String) : List String :=
  if x ∈ s then s else s ++ [x]

/-- JS `haystack.includes(needle)` on lists of characters. -/
def listIncludes (p : List Char) : List Char → Bool
  | [] => p.isEmpty
  | c :: t => p.isPrefixOf (c :: t) || listIncludes p t

/-- JS `haystack.includes(needle)` on strings. -/
def strIncludes (haystack needle : String) : Bool :=
  listIncludes needle.toList haystack.toList

/-- JS whitespace (the characters relevant to `String.prototype.trim`). -/
def jsWhitespace (c : Char) : Bool :=
  c = ' ' ∨ c = '\t' ∨ c = '\n' ∨ c = '\r'

/-- JS `s.trim()`. -/
def jsTrim (s : String) : String :=
  ⟨((s.data.dropWhile jsWhitespace).reverse.dropWhile jsWhitespace).reverse⟩

/-- JS `s.toLowerCase()`. -/
def jsToLower (s : String) : String :=
  ⟨s.data.map Char.toLower⟩

/-- `getFilteredItems` (the `ui.filters` input is passed explicitly). -/
def getFilteredItems (filters : FilterState) (d : RoadmapData) :
    List RoadmapItem :=
  let nonArchivedItems := d.items.filter (fun i => i.archived ≠ some true)
  let items := nonArchivedItems
  let items :=
    if filters.swimlanes ≠ [] then
      let primaryItems := nonArchivedItems.filter
        (fun i => filters.swimlanes.contains i.swimlaneId)
      let primaryIds := primaryItems.map (·.id)
      let connectedIds : List String := primaryItems.foldl (fun acc item =>
        let acc := (item.dependsOn.getD []).foldl (fun acc depId =>
          if primaryIds.contains depId then acc else setAdd acc depId) acc
        (item.enables.getD []).foldl (fun acc enId =>
          if primaryIds.contains enId then acc else setAdd acc enId) acc) []
      let connectedIds := nonArchivedItems.foldl (fun (acc : List String) item =>
        if ¬ primaryIds.contains item.id ∧ ¬ acc.contains item.id then
          let dependsOnPrimary :=
            (item.dependsOn.getD []).any (fun x => primaryIds.contains x)
          let enablesPrimary :=
            (item.enables.getD []).any (fun x => primaryIds.contains x)
          if dependsOnPrimary || enablesPrimary then setAdd acc item.id else acc
        else acc) connectedIds
      nonArchivedItems.filter (fun i =>
        primaryIds.contains i.id || connectedIds.contains i.id)
    else items
  let items :=
    if filters.stages ≠ [] then
      items.filter (fun i => filters.stages.contains i.stage)
    else items
  let items :=
    if filters.types ≠ [] then
      items.filter (fun i => filters.types.contains i.type)
    else items
  let items :=
    if filters.blockerStatus ≠ [] then
      items.filter (fun i =>
        i.type != ItemType.blocker ||
        (match i.blockerStatus with
         | some bs => filters.blockerStatus.contains bs
         | none => false))
    else items
  let items :=
    if filters.showCompleted = false then
      items.filter (fun i => i.completed ≠ some true)
    else items
  let items :=
    if jsTrim filters.searchQuery ≠ "" then
      let query := jsToLower filters.searchQuery
      items.filter (fun i =>
        strIncludes (jsToLower i.title) query ||
        (match i.description with
         | some dsc => strIncludes (jsToLower dsc) query
         | none => false))
    else items
  items

/-- `getFilteredSwimlanes`. -/
def getFilteredSwimlanes (filters : FilterState) (d : RoadmapData) :
    List Swimlane :=
  if filters.swimlanes = [] then jsSortSwimlanes d.swimlanes
  else
    let filteredItems := getFilteredItems filters d
    let swimlanesWithContent := filteredItems.map (·.swimlaneId)
    jsSortSwimlanes (d.swimlanes.filter
      (fun s => swimlanesWithContent.contains s.id))

/-! ## Operation sequences for the dependency-symmetry invariant -/

/-- The operations quantified over by the dependency-symmetry claim. -/
inductive DepOp where
  | addDep (fromId toId : String)
  | removeDep (fromId toId : String)
  | delItem (id : String)
deriving DecidableEq, Repr

/-- A dependency call is non-degenerate when its two endpoints differ. -/
def DepOp.valid : DepOp → Prop
  | .addDep f t => f ≠ t
  | .removeDep f t => f ≠ t
  | .delItem _ => True

/-- Run one store call (`now` models its timestamp). -/
def DepOp.step (op : DepOp) (now : String) (d : RoadmapData) : RoadmapData :=
  match op with
  | .addDep f t => addDependency f t now d
  | .removeDep f t => removeDependency f t now d
  | .delItem id => deleteItem id now d

/-- Run a sequence of store calls. -/
def runOps (d : RoadmapData) (ops : List (DepOp × String)) : RoadmapData :=
  ops.foldl (fun acc p => p.1.step p.2 acc) d

/-- The dependency-symmetry property of §8.1 of the spec:
`B.id ∈ A.dependsOn ⟺ A.id ∈ B.enables` for all items `A`, `B`. -/
def depSym (d : RoadmapData) : Prop :=
  ∀ A ∈ d.items, ∀ B ∈ d.items,
    (B.id ∈ A.dependsOn.getD [] ↔ A.id ∈ B.enables.getD [])

instance (d : RoadmapData) : Decidable (depSym d) :=
  inferInstanceAs (Decidable (∀ A ∈ d.items, ∀ B ∈ d.items,
    (B.id ∈ A.dependsOn.getD [] ↔ A.id ∈ B.enables.getD [])))

instance : (op : DepOp) → Decidable op.valid
  | .addDep f t => inferInstanceAs (Decidable (f ≠ t))
  | .removeDep f t => inferInstanceAs (Decidable (f ≠ t))
  | .delItem _ => inferInstanceAs (Decidable True)

instance : IsTotal SubStage (fun a b => a.order ≤ b.order) :=
  ⟨fun a b => Int.le_total a.order b.order⟩

instance : IsTrans SubStage (fun a b => a.order ≤ b.order) :=
  ⟨fun _ _ _ => Int.le_trans⟩

/-! ## Concrete fixtures used by witnesses and counterexamples -/

/-- An item with every optional field absent. -/
def mkItem (id : String) (type : ItemType) (title : String) (stage : Stage)
    (swimlaneId : String) : RoadmapItem :=
  { id := id, type := type, title := title, description := none, stage := stage,
    swimlaneId := swimlaneId, reportedDate := none, targetDate := none,
    checkIns := none, blockerStatus := none, dependsOn := none, enables := none,
    links := none, outputIds := none, completed := none, order := none,
    isWin := none, archived := none, subItems := none, subItemConfig := none,
    itemLastUpdated := none, changeLog := none }

def s1 : Swimlane := ⟨"s1", "Team 1", "#111111", 0⟩

def s2 : Swimlane := ⟨"s2", "Team 2", "#222222", 1⟩

def m1 : RoadmapItem := mkItem "m1" .milestone "M1" .recent "s1"

def m2 : RoadmapItem :=
  { mkItem "m2" .milestone "M2" .recent "s2" with dependsOn := some ["m1"] }

/-- The two-swimlane document of the filter-composition example. -/
def docC8 : RoadmapData :=
  { title := "Doc", lastUpdated := "t0", swimlanes := [s1, s2],
    items := [m1, m2] }

/-- Default filters with the swimlane filter set to `[S2]`. -/
def filtC8 : FilterState := { defaultFilters with swimlanes := ["s2"] }

def st1 : SubStage := ⟨"st1", "Stage 1", 0⟩

def st2 : SubStage := ⟨"st2", "Stage 2", 1⟩

/-- A sub-item assigned to custom stage `st1`. -/
def sub1 : SubItem :=
  { id := "t1", title := "T1", description := none, completed := false,
    priority := none, statusTagId := none, subStageId := some "st1",
    subSwimlaneId := none, order := 0, links := none }

/-- An item with two custom sub-stages and one sub-item in the first one. -/
def itemC3 : RoadmapItem :=
  { mkItem "i1" .milestone "I1" .recent "s1" with
    subItems := some [sub1],
    subItemConfig := some
      { viewType := .kanban, customStages := some [st1, st2],
        customSwimlanes := none, customStatusTags := none } }

def docC3 : RoadmapData :=
  { title := "Doc", lastUpdated := "t0", swimlanes := [s1], items := [itemC3] }

/-- A single item with no deps: the dependency symmetry holds vacuously. -/
def x1 : RoadmapItem := mkItem "x" .milestone "X" .recent "s1"

def docC1 : RoadmapData :=
  { title := "Doc", lastUpdated := "t0", swimlanes := [s1], items := [x1] }

def y1 : RoadmapItem := mkItem "y" .milestone "Y" .recent "s1"

/-- A two-item document with no dependencies: symmetry holds initially. -/
def docSym : RoadmapData :=
  { title := "Doc", lastUpdated := "t0", swimlanes := [s1], items := [x1, y1] }

/-- A sequence of valid dependency calls used by the symmetry witness. -/
def opsW : List (DepOp × String) :=
  [(.addDep "x" "y", "t1"), (.removeDep "x" "y", "t2"), (.delItem "y", "t3")]

/-- A document with one unconfigured item (no `subItemConfig`). -/
def docC6 : RoadmapData :=
  { title := "Doc", lastUpdated := "t0", swimlanes := [s1],
    items := [mkItem "u1" .goal "U1" .recent "s1"] }

/-! ## Change-log call sequences (for the bounded-history invariant) -/

/-- Apply a sequence of `addChangeLog` calls to an item; each list element
carries the payload of one call (its entry fields, including the generated
id and timestamp). -/
def applyLogCalls (item : RoadmapItem) (calls : List ChangeLogEntry) :
    RoadmapItem :=
  calls.foldl
    (fun it e => addChangeLog it e.type e.description e.metadata e.id e.timestamp)
    item

/-- Entries used by the change-log witness. -/
def e1 : ChangeLogEntry := ⟨"e1", .created, "ts1", "Item created", none⟩

def e2 : ChangeLogEntry := ⟨"e2", .completed, "ts2", "Marked as completed", none⟩

def e3 : ChangeLogEntry := ⟨"e3", .archived, "ts3", "Archived", none⟩

/-! ## JSON model (for the export/import round trip)

`exportData` is `JSON.stringify(data, null, 2)` and import is
`loadData(JSON.parse(text))`.  The `stringify`/`parse` pair is the JS
runtime's bijection between JSON trees and text, so the round trip is
modelled at the tree level: `encRoadmapData` produces the JSON tree that
`JSON.stringify` serializes — object fields whose value is `undefined`
(`none`) are omitted, exactly as `stringify` omits them — and the decoders
model how the app consumes the parsed object: reading a field that is
absent yields `undefined` (`none`). -/

/-- JSON trees. -/
inductive Json where
  | str : String → Json
  | num : Int → Json
  | bool : Bool → Json
  | null : Json
  | arr : List Json → Json
  | obj : List (String × Json) → Json

/-- One optional object field: omitted when the value is `undefined`. -/
def jopt (k : String) (o : Option Json) : List (String × Json) :=
  match o with
  | some v => [(k, v)]
  | none => []

def asStr : Json → Option String
  | .str s => some s
  | _ => none

def asInt : Json → Option Int
  | .num n => some n
  | _ => none

def asBool : Json → Option Bool
  | .bool b => some b
  | _ => none

/-- Read a required object field. -/
def reqF {α : Type} (fs : List (String × Json)) (k : String)
    (dec : Json → Option α) : Option α :=
  (fs.lookup k).bind dec

/-- Decode an optional field from its looked-up value: an absent field is
`undefined`. -/
def decodeOptField {α : Type} (j : Option Json) (dec : Json → Option α) :
    Option (Option α) :=
  match j with
  | none => some none
  | some v => (dec v).map some

/-- Read an optional object field. -/
def optF {α : Type} (fs : List (String × Json)) (k : String)
    (dec : Json → Option α) : Option (Option α) :=
  decodeOptField (fs.lookup k) dec

def encList {α : Type} (enc : α → Json) (l : List α) : Json := .arr (l.map enc)

def decListAux {α : Type} (dec : Json → Option α) : List Json → Option (List α)
  | [] => some []
  | j :: t =>
    match dec j, decListAux dec t with
    | some a, some l => some (a :: l)
    | _, _ => none

def decList {α : Type} (dec : Json → Option α) : Json → Option (List α)
  | .arr xs => decListAux dec xs
  | _ => none

def encStage : Stage → Json
  | .old => .str "old"
  | .recent => .str "recent"
  | .shortTerm => .str "short-term"
  | .longTerm => .str "long-term"

def decStage : Json → Option Stage
  | .str "old" => some .old
  | .str "recent" => some .recent
  | .str "short-term" => some .shortTerm
  | .str "long-term" => some .longTerm
  | _ => none

def encItemType : ItemType → Json
  | .milestone => .str "milestone"
  | .blocker => .str "blocker"
  | .goal => .str "goal"
  | .output => .str "output"

def decItemType : Json → Option ItemType
  | .str "milestone" => some .milestone
  | .str "blocker" => some .blocker
  | .str "goal" => some .goal
  | .str "output" => some .output
  | _ => none

def encBlockerStatus : BlockerStatus → Json
  | .open' => .str "open"
  | .mitigated => .str "mitigated"
  | .resolved => .str "resolved"

def decBlockerStatus : Json → Option BlockerStatus
  | .str "open" => some .open'
  | .str "mitigated" => some .mitigated
  | .str "resolved" => some .resolved
  | _ => none

def encSubViewType : SubViewType → Json
  | .tasks => .str "tasks"
  | .kanban => .str "kanban"
  | .roadmap => .str "roadmap"

def decSubViewType : Json → Option SubViewType
  | .str "tasks" => some .tasks
  | .str "kanban" => some .kanban
  | .str "roadmap" => some .roadmap
  | _ => none

def encPriority : Priority → Json
  | .critical => .str "critical"
  | .high => .str "high"
  | .medium => .str "medium"
  | .low => .str "low"

def decPriority : Json → Option Priority
  | .str "critical" => some .critical
  | .str "high" => some .high
  | .str "medium" => some .medium
  | .str "low" => some .low
  | _ => none

def encLinkType : LinkType → Json
  | .gdoc => .str "gdoc"
  | .slack => .str "slack"
  | .github => .str "github"
  | .publication => .str "publication"
  | .presentation => .str "presentation"
  | .data => .str "data"
  | .other => .str "other"

def decLinkType : Json → Option LinkType
  | .str "gdoc" => some .gdoc
  | .str "slack" => some .slack
  | .str "github" => some .github
  | .str "publication" => some .publication
  | .str "presentation" => some .presentation
  | .str "data" => some .data
  | .str "other" => some .other
  | _ => none

def encChangeType : ChangeType → Json
  | .created => .str "created"
  | .completed => .str "completed"
  | .archived => .str "archived"
  | .unarchived => .str "unarchived"
  | .statusChanged => .str "status_changed"
  | .stageChanged => .str "stage_changed"
  | .linkAdded => .str "link_added"
  | .subitemAdded => .str "subitem_added"
  | .subitemCompleted => .str "subitem_completed"
  | .markedWin => .str "marked_win"
  | .outputAdded => .str "output_added"

def decChangeType : Json → Option ChangeType
  | .str "created" => some .created
  | .str "completed" => some .completed
  | .str "archived" => some .archived
  | .str "unarchived" => some .unarchived
  | .str "status_changed" => some .statusChanged
  | .str "stage_changed" => some .stageChanged
  | .str "link_added" => some .linkAdded
  | .str "subitem_added" => some .subitemAdded
  | .str "subitem_completed" => some .subitemCompleted
  | .str "marked_win" => some .markedWin
  | .str "output_added" => some .outputAdded
  | _ => none

def encStatusTag (t : StatusTag) : Json :=
  .obj (jopt "id" (some (.str t.id)) ++
        jopt "label" (some (.str t.label)) ++
        jopt "color" (some (.str t.color)))

def decStatusTag : Json → Option StatusTag
  | .obj fs => do
      let id ← reqF fs "id" asStr
      let label ← reqF fs "label" asStr
      let color ← reqF fs "color" asStr
      some { id := id, label := label, color := color }
  | _ => none

def encSubStage (s : SubStage) : Json :=
  .obj (jopt "id" (some (.str s.id)) ++
        jopt "label" (some (.str s.label)) ++
        jopt "order" (some (.num s.order)))

def decSubStage : Json → Option SubStage
  | .obj fs => do
      let id ← reqF fs "id" asStr
      let label ← reqF fs "label" asStr
      let order ← reqF fs "order" asInt
      some { id := id, label := label, order := order }
  | _ => none

def encSubSwimlane (s : SubSwimlane) : Json :=
  .obj (jopt "id" (some (.str s.id)) ++
        jopt "name" (some (.str s.name)) ++
        jopt "color" (some (.str s.color)) ++
        jopt "order" (some (.num s.order)))

def decSubSwimlane : Json → Option SubSwimlane
  | .obj fs => do
      let id ← reqF fs "id" asStr
      let name ← reqF fs "name" asStr
      let color ← reqF fs "color" asStr
      let order ← reqF fs "order" asInt
      some { id := id, name := name, color := color, order := order }
  | _ => none

def encExternalLink (l : ExternalLink) : Json :=
  .obj (jopt "id" (some (.str l.id)) ++
        jopt "url" (some (.str l.url)) ++
        jopt "label" (some (.str l.label)) ++
        jopt "type" (l.type.map encLinkType))

def decExternalLink : Json → Option ExternalLink
  | .obj fs => do
      let id ← reqF fs "id" asStr
      let url ← reqF fs "url" asStr
      let label ← reqF fs "label" asStr
      let type ← optF fs "type" decLinkType
      some { id := id, url := url, label := label, type := type }
  | _ => none

def encCheckIn (c : CheckIn) : Json :=
  .obj (jopt "id" (some (.str c.id)) ++
        jopt "label" (some (.str c.label)) ++
        jopt "completed" (some (.bool c.completed)))

def decCheckIn : Json → Option CheckIn
  | .obj fs => do
      let id ← reqF fs "id" asStr
      let label ← reqF fs "label" asStr
      let completed ← reqF fs "completed" asBool
      some { id := id, label := label, completed := completed }
  | _ => none

def encSubItem (s : SubItem) : Json :=
  .obj (jopt "id" (some (.str s.id)) ++
        jopt "title" (some (.str s.title)) ++
        jopt "description" (s.description.map Json.str) ++
        jopt "completed" (some (.bool s.completed)) ++
        jopt "priority" (s.priority.map encPriority) ++
        jopt "statusTagId" (s.statusTagId.map Json.str) ++
        jopt "subStageId" (s.subStageId.map Json.str) ++
        jopt "subSwimlaneId" (s.subSwimlaneId.map Json.str) ++
        jopt "order" (some (.num s.order)) ++
        jopt "links" (s.links.map (encList encExternalLink)))

def decSubItem : Json → Option SubItem
  | .obj fs => do
      let id ← reqF fs "id" asStr
      let title ← reqF fs "title" asStr
      let description ← optF fs "description" asStr
      let completed ← reqF fs "completed" asBool
      let priority ← optF fs "priority" decPriority
      let statusTagId ← optF fs "statusTagId" asStr
      let subStageId ← optF fs "subStageId" asStr
      let subSwimlaneId ← optF fs "subSwimlaneId" asStr
      let order ← reqF fs "order" asInt
      let links ← optF fs "links" (decList decExternalLink)
      some { id := id, title := title, description := description,
             completed := completed, priority := priority,
             statusTagId := statusTagId, subStageId := subStageId,
             subSwimlaneId := subSwimlaneId, order := order, links := links }
  | _ => none

def encSubItemConfig (c : SubItemConfig) : Json :=
  .obj (jopt "viewType" (some (encSubViewType c.viewType)) ++
        jopt "customStages" (c.customStages.map (encList encSubStage)) ++
        jopt "customSwimlanes" (c.customSwimlanes.map (encList encSubSwimlane)) ++
        jopt "customStatusTags" (c.customStatusTags.map (encList encStatusTag)))

def decSubItemConfig : Json → Option SubItemConfig
  | .obj fs => do
      let viewType ← reqF fs "viewType" decSubViewType
      let customStages ← optF fs "customStages" (decList decSubStage)
      let customSwimlanes ← optF fs "customSwimlanes" (decList decSubSwimlane)
      let customStatusTags ← optF fs "customStatusTags" (decList decStatusTag)
      some { viewType := viewType, customStages := customStages,
             customSwimlanes := customSwimlanes,
             customStatusTags := customStatusTags }
  | _ => none

def encChangeLogMetadata (m : ChangeLogMetadata) : Json :=
  .obj (jopt "fromValue" (m.fromValue.map Json.str) ++
        jopt "toValue" (m.toValue.map Json.str) ++
        jopt "linkLabel" (m.linkLabel.map Json.str) ++
        jopt "subItemTitle" (m.subItemTitle.map Json.str))

def decChangeLogMetadata : Json → Option ChangeLogMetadata
  | .obj fs => do
      let fromValue ← optF fs "fromValue" asStr
      let toValue ← optF fs "toValue" asStr
      let linkLabel ← optF fs "linkLabel" asStr
      let subItemTitle ← optF fs "subItemTitle" asStr
      some { fromValue := fromValue, toValue := toValue,
             linkLabel := linkLabel, subItemTitle := subItemTitle }
  | _ => none

def encChangeLogEntry (e : ChangeLogEntry) : Json :=
  .obj (jopt "id" (some (.str e.id)) ++
        jopt "type" (some (encChangeType e.type)) ++
        jopt "timestamp" (some (.str e.timestamp)) ++
        jopt "description" (some (.str e.description)) ++
        jopt "metadata" (e.metadata.map encChangeLogMetadata))

def decChangeLogEntry : Json → Option ChangeLogEntry
  | .obj fs => do
      let id ← reqF fs "id" asStr
      let type ← reqF fs "type" decChangeType
      let timestamp ← reqF fs "timestamp" asStr
      let description ← reqF fs "description" asStr
      let metadata ← optF fs "metadata" decChangeLogMetadata
      some { id := id, type := type, timestamp := timestamp,
             description := description, metadata := metadata }
  | _ => none

def encRoadmapItem (i : RoadmapItem) : Json :=
  .obj (jopt "id" (some (.str i.id)) ++
        jopt "type" (some (encItemType i.type)) ++
        jopt "title" (some (.str i.title)) ++
        jopt "description" (i.description.map Json.str) ++
        jopt "stage" (some (encStage i.stage)) ++
        jopt "swimlaneId" (some (.str i.swimlaneId)) ++
        jopt "reportedDate" (i.reportedDate.map Json.str) ++
        jopt "targetDate" (i.targetDate.map Json.str) ++
        jopt "checkIns" (i.checkIns.map (encList encCheckIn)) ++
        jopt "blockerStatus" (i.blockerStatus.map encBlockerStatus) ++
        jopt "dependsOn" (i.dependsOn.map (encList Json.str)) ++
        jopt "enables" (i.enables.map (encList Json.str)) ++
        jopt "links" (i.links.map (encList encExternalLink)) ++
        jopt "outputIds" (i.outputIds.map (encList Json.str)) ++
        jopt "completed" (i.completed.map Json.bool) ++
        jopt "order" (i.order.map Json.num) ++
        jopt "isWin" (i.isWin.map Json.bool) ++
        jopt "archived" (i.archived.map Json.bool) ++
        jopt "subItems" (i.subItems.map (encList encSubItem)) ++
        jopt "subItemConfig" (i.subItemConfig.map encSubItemConfig) ++
        jopt "itemLastUpdated" (i.itemLastUpdated.map Json.str) ++
        jopt "changeLog" (i.changeLog.map (encList encChangeLogEntry)))

/-- First half of the decoded item fields (decoder decomposition only). -/
structure ItemFieldsA where
  id : String
  type : ItemType
  title : String
  description : Option String
  stage : Stage
  swimlaneId : String
  reportedDate : Option String
  targetDate : Option String
  checkIns : Option (List CheckIn)
  blockerStatus : Option BlockerStatus
  dependsOn : Option (List String)

/-- Second half of the decoded item fields. -/
structure ItemFieldsB where
  enables : Option (List String)
  links : Option (List ExternalLink)
  outputIds : Option (List String)
  completed : Option Bool
  order : Option Int
  isWin : Option Bool
  archived : Option Bool
  subItems : Option (List SubItem)
  subItemConfig : Option SubItemConfig
  itemLastUpdated : Option String
  changeLog : Option (List ChangeLogEntry)

def decItemFieldsA (fs : List (String × Json)) : Option ItemFieldsA := do
  let id ← reqF fs "id" asStr
  let type ← reqF fs "type" decItemType
  let title ← reqF fs "title" asStr
  let description ← optF fs "description" asStr
  let stage ← reqF fs "stage" decStage
  let swimlaneId ← reqF fs "swimlaneId" asStr
  let reportedDate ← optF fs "reportedDate" asStr
  let targetDate ← optF fs "targetDate" asStr
  let checkIns ← optF fs "checkIns" (decList decCheckIn)
  let blockerStatus ← optF fs "blockerStatus" decBlockerStatus
  let dependsOn ← optF fs "dependsOn" (decList asStr)
  some { id := id, type := type, title := title, description := description,
         stage := stage, swimlaneId := swimlaneId,
         reportedDate := reportedDate, targetDate := targetDate,
         checkIns := checkIns, blockerStatus := blockerStatus,
         dependsOn := dependsOn }

def decItemFieldsB (fs : List (String × Json)) : Option ItemFieldsB := do
  let enables ← optF fs "enables" (decList asStr)
  let links ← optF fs "links" (decList decExternalLink)
  let outputIds ← optF fs "outputIds" (decList asStr)
  let completed ← optF fs "completed" asBool
  let order ← optF fs "order" asInt
  let isWin ← optF fs "isWin" asBool
  let archived ← optF fs "archived" asBool
  let subItems ← optF fs "subItems" (decList decSubItem)
  let subItemConfig ← optF fs "subItemConfig" decSubItemConfig
  let itemLastUpdated ← optF fs "itemLastUpdated" asStr
  let changeLog ← optF fs "changeLog" (decList decChangeLogEntry)
  some { enables := enables, links := links, outputIds := outputIds,
         completed := completed, order := order, isWin := isWin,
         archived := archived, subItems := subItems,
         subItemConfig := subItemConfig, itemLastUpdated := itemLastUpdated,
         changeLog := changeLog }

def decRoadmapItem : Json → Option RoadmapItem
  | .obj fs => do
      let a ← decItemFieldsA fs
      let b ← decItemFieldsB fs
      some { id := a.id, type := a.type, title := a.title,
             description := a.description, stage := a.stage,
             swimlaneId := a.swimlaneId, reportedDate := a.reportedDate,
             targetDate := a.targetDate, checkIns := a.checkIns,
             blockerStatus := a.blockerStatus, dependsOn := a.dependsOn,
             enables := b.enables, links := b.links,
             outputIds := b.outputIds, completed := b.completed,
             order := b.order, isWin := b.isWin, archived := b.archived,
             subItems := b.subItems, subItemConfig := b.subItemConfig,
             itemLastUpdated := b.itemLastUpdated, changeLog := b.changeLog }
  | _ => none

def encSwimlane (s : Swimlane) : Json :=
  .obj (jopt "id" (some (.str s.id)) ++
        jopt "name" (some (.str s.name)) ++
        jopt "color" (some (.str s.color)) ++
        jopt "order" (some (.num s.order)))

def decSwimlane : Json → Option Swimlane
  | .obj fs => do
      let id ← reqF fs "id" asStr
      let name ← reqF fs "name" asStr
      let color ← reqF fs "color" asStr
      let order ← reqF fs "order" asInt
      some { id := id, name := name, color := color, order := order }
  | _ => none

def encRoadmapData (d : RoadmapData) : Json :=
  .obj (jopt "title" (some (.str d.title)) ++
        jopt "lastUpdated" (some (.str d.lastUpdated)) ++
        jopt "swimlanes" (some (encList encSwimlane d.swimlanes)) ++
        jopt "items" (some (encList encRoadmapItem d.items)))

def decRoadmapData : Json → Option RoadmapData
  | .obj fs => do
      let title ← reqF fs "title" asStr
      let lastUpdated ← reqF fs "lastUpdated" asStr
      let swimlanes ← reqF fs "swimlanes" (decList decSwimlane)
      let items ← reqF fs "items" (decList decRoadmapItem)
      some { title := title, lastUpdated := lastUpdated,
             swimlanes := swimlanes, items := items }
  | _ => none

/-- `exportData`, modelled up to the JSON tree that `JSON.stringify`
serializes. -/
def exportData (d : RoadmapData) : Json := encRoadmapData d

/-! ## C3: sub-stage deletion reassignment -/

/-- C3: the claim says `deleteSubStage` relocates sub-items of the deleted
stage to the first remaining custom stage, never leaving them deleted or
dangling, "including when the deleted stage is itself the first stage of the
list".  Evaluating the code at that very input shows otherwise: deleting the
first stage `st1` of `[st1, st2]` leaves the orphaned sub-item pointing at
the deleted stage `st1` (the relocation target is read from the
pre-deletion stage list, `customStages[0]`, which is the stage being
deleted), while `st1` is gone from `customStages` — contradicting both the
claim and the source's own comment "Move any sub-items in this stage to
first available stage". -/
theorem C3_deleteSubStage_first_stage_dangles :
    ((deleteSubStage "i1" "st1" "t1" docC3).items.map
        (fun i => (i.subItems.getD []).map (·.subStageId))) = [[some "st1"]] ∧
    ((deleteSubStage "i1" "st1" "t1" docC3).items.map
        (fun i => ((i.subItemConfig.bind (·.customStages)).getD []).map (·.id)))
      = [["st2"]] := by
  decide

/-! ## C6: getSubStages defaults and sorting -/

/-- C6 counterexample: for an unconfigured item the claim says the default
stages come back ordered Backlog, Up Next, In Progress, Done; the code's
`DEFAULT_SUB_STAGES` is in the opposite order. -/
theorem C6_counterexample :
    (getSubStages "u1" docC6).map (·.label)
        = ["Done", "In Progress", "Up Next", "Backlog"] ∧
    (getSubStages "u1" docC6).map (·.label)
        ≠ ["Backlog", "Up Next", "In Progress", "Done"] := by
  decide

/-- C6 (amended): for an item with no custom stages configured,
`getSubStages` returns the fixed default 4-stage set ordered Done, then
In Progress, then Up Next, then Backlog; for a configured item it returns
the item's custom stages sorted by `order` (a permutation of them, sorted
stably). -/
theorem C6_getSubStages_spec (d : RoadmapData) (itemId : String)
    (it : RoadmapItem)
    (hfind : d.items.find? (fun i => i.id = itemId) = some it) :
    (it.subItemConfig.bind (·.customStages) = none →
      getSubStages itemId d = DEFAULT_SUB_STAGES ∧
      DEFAULT_SUB_STAGES.map (·.label)
        = ["Done", "In Progress", "Up Next", "Backlog"]) ∧
    (∀ cs, it.subItemConfig.bind (·.customStages) = some cs →
      (getSubStages itemId d).Perm cs ∧
      List.Sorted (fun a b => a.order ≤ b.order) (getSubStages itemId d)) := by
  unfold getSubStages
  rw [hfind]
  constructor
  · intro h
    rw [Option.some_bind, h]
    exact ⟨rfl, rfl⟩
  · intro cs h
    rw [Option.some_bind, h]
    exact ⟨List.perm_insertionSort _ cs, List.sorted_insertionSort _ cs⟩

/-- C6 witness: the configured branch at the concrete document `docC3`. -/
theorem C6_getSubStages_witness :
    docC3.items.find? (fun i => i.id = "i1") = some itemC3 ∧
    (itemC3.subItemConfig.bind (·.customStages) = some [st1, st2] →
      (getSubStages "i1" docC3).Perm [st1, st2] ∧
      List.Sorted (fun a b => a.order ≤ b.order) (getSubStages "i1" docC3)) :=
  ⟨by decide, (C6_getSubStages_spec docC3 "i1" itemC3 (by decide)).2 [st1, st2]⟩

/-! ## C8: filter composition example -/

/-- C8: with the swimlane filter `[s2]` and all other filters at their
defaults, `getFilteredItems` returns exactly `[m1, m2]` (the cross-swimlane
dependency pulls `m1` in) and `getFilteredSwimlanes` returns `[s1, s2]`
sorted by order. -/
theorem C8_filter_composition :
    getFilteredItems filtC8 docC8 = [m1, m2] ∧
    getFilteredSwimlanes filtC8 docC8 = [s1, s2] := by
  decide

/-! ## Helper lemmas -/

@[simp]
theorem addChangeLog_id (i : RoadmapItem) (ty ds md cid cts) :
    (addChangeLog i ty ds md cid cts).id = i.id := rfl

@[simp]
theorem addChangeLog_itemLastUpdated (i : RoadmapItem) (ty ds md cid cts) :
    (addChangeLog i ty ds md cid cts).itemLastUpdated = i.itemLastUpdated := rfl

@[simp]
theorem addChangeLog_subItems (i : RoadmapItem) (ty ds md cid cts) :
    (addChangeLog i ty ds md cid cts).subItems = i.subItems := rfl

@[simp]
theorem addChangeLog_archived (i : RoadmapItem) (ty ds md cid cts) :
    (addChangeLog i ty ds md cid cts).archived = i.archived := rfl

@[simp]
theorem addChangeLog_completed (i : RoadmapItem) (ty ds md cid cts) :
    (addChangeLog i ty ds md cid cts).completed = i.completed := rfl

@[simp]
theorem addChangeLog_dependsOn (i : RoadmapItem) (ty ds md cid cts) :
    (addChangeLog i ty ds md cid cts).dependsOn = i.dependsOn := rfl

@[simp]
theorem addChangeLog_enables (i : RoadmapItem) (ty ds md cid cts) :
    (addChangeLog i ty ds md cid cts).enables = i.enables := rfl

theorem map_map_congr {α β : Type} (l : List α) (f : α → α) (g g' : α → β)
    (h : ∀ a, g (f a) = g' a) : (l.map f).map g = l.map g' := by
  induction l with
  | nil => rfl
  | cons a t ih => rw [List.map_cons, List.map_cons, List.map_cons, h a, ih]

theorem map_eq_self_of {α : Type} (l : List α) (f : α → α)
    (h : ∀ a ∈ l, f a = a) : l.map f = l := by
  induction l with
  | nil => rfl
  | cons a t ih =>
    rw [List.map_cons, h a (List.mem_cons_self a t),
      ih (fun b hb => h b (List.mem_cons_of_mem a hb))]

theorem filter_eq_self_of {α : Type} (l : List α) (p : α → Bool)
    (h : ∀ a ∈ l, p a = true) : l.filter p = l := by
  induction l with
  | nil => rfl
  | cons a t ih =>
    rw [List.filter_cons_of_pos (h a (List.mem_cons_self a t)),
      ih (fun b hb => h b (List.mem_cons_of_mem a hb))]

theorem updateItemFn_eq_self (id : String) (u : ItemUpdates) (now : String)
    (g1 g2 g3 g4 : String × String) (i : RoadmapItem) (h : i.id ≠ id) :
    updateItemFn id u now g1 g2 g3 g4 i = i := by
  unfold updateItemFn
  rw [if_pos h]

theorem archiveItemFn_eq_self (id now cid cts : String) (i : RoadmapItem)
    (h : i.id ≠ id) : archiveItemFn id now cid cts i = i := by
  unfold archiveItemFn
  rw [if_pos h]

theorem unarchiveItemFn_eq_self (id now cid cts : String) (i : RoadmapItem)
    (h : i.id ≠ id) : unarchiveItemFn id now cid cts i = i := by
  unfold unarchiveItemFn
  rw [if_pos h]

/-! ## C10: addSubItem -/

/-- C10: `addSubItem` appends exactly one new sub-item to the targeted item,
with `completed = false`, `order` equal to the number of sub-items the item
had before the call, and the literal `subStageId` `"backlog"` —
unconditionally, with no hypothesis on the parent's custom stages. -/
theorem C10_addSubItem_spec (d : RoadmapData)
    (itemId title nid now clid clts : String) (it : RoadmapItem)
    (hfind : d.items.find? (fun i => i.id = itemId) = some it)
    (k : Nat) (i : RoadmapItem) (hk : d.items[k]? = some i)
    (hik : i.id = itemId) :
    ((addSubItem itemId title nid now clid clts d).items[k]?).map (·.subItems)
      = some (some (it.subItems.getD [] ++
        [{ id := nid, title := title, description := none, completed := false,
           priority := none, statusTagId := none, subStageId := some "backlog",
           subSwimlaneId := none,
           order := ((it.subItems.getD []).length : Int), links := none }])) := by
  unfold addSubItem
  rw [hfind]
  simp only [List.getElem?_map, hk, Option.map_some', Option.some_bind]
  rw [if_neg (not_not_intro hik)]
  simp [addChangeLog]

/-- C10 witness: adding a sub-item to the concrete item `i1`, whose custom
stages `[st1, st2]` contain no stage with id `"backlog"`. -/
theorem C10_addSubItem_witness :
    docC3.items.find? (fun i => i.id = "i1") = some itemC3 ∧
    docC3.items[0]? = some itemC3 ∧
    ((addSubItem "i1" "T2" "n2" "t2" "c2" "ts2" docC3).items[0]?).map (·.subItems)
      = some (some (itemC3.subItems.getD [] ++
        [{ id := "n2", title := "T2", description := none, completed := false,
           priority := none, statusTagId := none, subStageId := some "backlog",
           subSwimlaneId := none,
           order := ((itemC3.subItems.getD []).length : Int), links := none }])) :=
  ⟨by decide, by decide,
    C10_addSubItem_spec docC3 "i1" "T2" "n2" "t2" "c2" "ts2" itemC3 (by decide)
      0 itemC3 (by decide) (by decide)⟩

/-! ## C7: archive / unarchive round trip -/

/-- C7: `archiveItem(id)` then `unarchiveItem(id)` leaves the item with
`archived = false` and `completed = true`: archiving forces completion and
unarchiving does not revert it. -/
theorem C7_archive_unarchive (d : RoadmapData) (id t1 c1 ts1 t2 c2 ts2 : String)
    (k : Nat) (i : RoadmapItem) (hik : d.items[k]? = some i) (hid : i.id = id) :
    ((unarchiveItem id t2 c2 ts2 (archiveItem id t1 c1 ts1 d)).items[k]?).map
        (fun j => (j.archived, j.completed)) = some (some false, some true) := by
  unfold unarchiveItem archiveItem
  simp only [List.getElem?_map, hik, Option.map_some']
  unfold unarchiveItemFn archiveItemFn
  rw [if_neg (not_not_intro hid)]
  simp [hid, addChangeLog]

/-- C7 witness at the concrete document `docC1`. -/
theorem C7_archive_unarchive_witness :
    docC1.items[0]? = some x1 ∧ x1.id = "x" ∧
    ((unarchiveItem "x" "t2" "c2" "ts2"
        (archiveItem "x" "t1" "c1" "ts1" docC1)).items[0]?).map
      (fun j => (j.archived, j.completed)) = some (some false, some true) :=
  ⟨by decide, by decide,
    C7_archive_unarchive docC1 "x" "t1" "c1" "ts1" "t2" "c2" "ts2" 0 x1
      (by decide) (by decide)⟩

/-! ## C5: mutations with unknown ids -/

/-- C5 counterexample: `updateItem` with an id that matches nothing still
refreshes the document's `lastUpdated`, so the resulting document is not
equal to the document before the call. -/
theorem C5_counterexample :
    updateItem "missing" {} "t1" ("g", "h") ("g", "h") ("g", "h") ("g", "h")
      docC1 ≠ docC1 := by
  decide

/-- C5 (amended): a mutation invoked with an id that refers to no existing
item (and, for `deleteItem`, that also occurs in no item's `dependsOn`,
`enables` or `outputIds` lists) leaves the document's title, swimlanes and
items unchanged, but still refreshes `lastUpdated` to the time of the
call. -/
theorem C5_unknown_id_spec (d : RoadmapData) (id now : String)
    (u : ItemUpdates) (g1 g2 g3 g4 : String × String) (c ts : String)
    (hid : ∀ i ∈ d.items, i.id ≠ id)
    (href : ∀ i ∈ d.items, id ∉ i.dependsOn.getD [] ∧
      id ∉ i.enables.getD [] ∧ id ∉ i.outputIds.getD []) :
    updateItem id u now g1 g2 g3 g4 d = { d with lastUpdated := now } ∧
    archiveItem id now c ts d = { d with lastUpdated := now } ∧
    unarchiveItem id now c ts d = { d with lastUpdated := now } ∧
    deleteItem id now d = { d with lastUpdated := now } := by
  refine ⟨?_, ?_, ?_, ?_⟩
  · unfold updateItem
    rw [map_eq_self_of d.items _
      (fun i hi => updateItemFn_eq_self id u now g1 g2 g3 g4 i (hid i hi))]
  · unfold archiveItem
    rw [map_eq_self_of d.items _
      (fun i hi => archiveItemFn_eq_self id now c ts i (hid i hi))]
  · unfold unarchiveItem
    rw [map_eq_self_of d.items _
      (fun i hi => unarchiveItemFn_eq_self id now c ts i (hid i hi))]
  · unfold deleteItem
    rw [filter_eq_self_of d.items _ (fun i hi => by
      simpa using hid i hi)]
    rw [map_eq_self_of d.items _ (fun i hi => by
      obtain ⟨h1, h2, h3⟩ := href i hi
      have e1 : i.dependsOn.map (List.filter (fun dep => dep ≠ id))
          = i.dependsOn := by
        cases hdep : i.dependsOn with
        | none => rfl
        | some l =>
          rw [hdep] at h1
          simp only [Option.getD_some] at h1
          rw [Option.map_some', filter_eq_self_of l _ (fun a ha => by
            simp only [decide_eq_true_eq]
            exact fun heq => h1 (heq ▸ ha))]
      have e2 : i.enables.map (List.filter (fun e => e ≠ id))
          = i.enables := by
        cases hen : i.enables with
        | none => rfl
        | some l =>
          rw [hen] at h2
          simp only [Option.getD_some] at h2
          rw [Option.map_some', filter_eq_self_of l _ (fun a ha => by
            simp only [decide_eq_true_eq]
            exact fun heq => h2 (heq ▸ ha))]
      have e3 : i.outputIds.map (List.filter (fun o => o ≠ id))
          = i.outputIds := by
        cases hout : i.outputIds with
        | none => rfl
        | some l =>
          rw [hout] at h3
          simp only [Option.getD_some] at h3
          rw [Option.map_some', filter_eq_self_of l _ (fun a ha => by
            simp only [decide_eq_true_eq]
            exact fun heq => h3 (heq ▸ ha))]
      rw [e1, e2, e3])]

/-- C5 witness at the concrete document `docC1` and the fresh id
`"missing"`. -/
theorem C5_unknown_id_witness :
    updateItem "missing" {} "t1" ("g", "h") ("g", "h") ("g", "h") ("g", "h")
        docC1 = { docC1 with lastUpdated := "t1" } ∧
    deleteItem "missing" "t1" docC1 = { docC1 with lastUpdated := "t1" } :=
  ⟨(C5_unknown_id_spec docC1 "missing" "t1" {} ("g", "h") ("g", "h") ("g", "h")
      ("g", "h") "c" "ts" (by decide) (by decide)).1,
   (C5_unknown_id_spec docC1 "missing" "t1" {} ("g", "h") ("g", "h") ("g", "h")
      ("g", "h") "c" "ts" (by decide) (by decide)).2.2.2⟩

/-! ## C4: timestamp stamping -/

theorem addDependencyFn_itemLastUpdated (f t : String) (i : RoadmapItem) :
    (addDependencyFn f t i).itemLastUpdated = i.itemLastUpdated := by
  unfold addDependencyFn
  split_ifs <;> rfl

theorem removeDependencyFn_itemLastUpdated (f t : String) (i : RoadmapItem) :
    (removeDependencyFn f t i).itemLastUpdated = i.itemLastUpdated := by
  unfold removeDependencyFn
  split_ifs <;> rfl

theorem updateItemFn_itemLastUpdated (id : String) (u : ItemUpdates)
    (now : String) (g1 g2 g3 g4 : String × String) (i : RoadmapItem) :
    (updateItemFn id u now g1 g2 g3 g4 i).itemLastUpdated
      = if i.id = id then some now else i.itemLastUpdated := by
  unfold updateItemFn
  by_cases h : i.id = id
  · rw [if_neg (not_not_intro h), if_pos h]
    repeat' split
    all_goals rfl
  · rw [if_pos h, if_neg h]

theorem archiveItemFn_itemLastUpdated (id now cid cts : String)
    (i : RoadmapItem) :
    (archiveItemFn id now cid cts i).itemLastUpdated
      = if i.id = id then some now else i.itemLastUpdated := by
  unfold archiveItemFn
  by_cases h : i.id = id
  · rw [if_neg (not_not_intro h), if_pos h]
    rfl
  · rw [if_pos h, if_neg h]

theorem unarchiveItemFn_itemLastUpdated (id now cid cts : String)
    (i : RoadmapItem) :
    (unarchiveItemFn id now cid cts i).itemLastUpdated
      = if i.id = id then some now else i.itemLastUpdated := by
  unfold unarchiveItemFn
  by_cases h : i.id = id
  · rw [if_neg (not_not_intro h), if_pos h]
    rfl
  · rw [if_pos h, if_neg h]

/-- C4 counterexample: `addCheckIn` modifies the item (its check-in list
grows) and stamps the document's `lastUpdated`, but leaves the item's
`itemLastUpdated` untouched (`none`, not `some "t1"`) — refuting the claim
that `addCheckIn` sets `itemLastUpdated` on the item it modifies. -/
theorem C4_counterexample :
    ((addCheckIn "x" "Sync" "c1" "t1" docC1).items.map
        (fun i => (i.itemLastUpdated, i.checkIns)))
      = [(none, some [⟨"c1", "Sync", false⟩])] ∧
    (addCheckIn "x" "Sync" "c1" "t1" docC1).lastUpdated = "t1" := by
  decide

/-- C4 (amended): every modelled document-mutating operation sets the
document's `lastUpdated` to the time of the call, and `updateItem`,
`archiveItem`, `unarchiveItem` and `addSubItem` also stamp the touched
item's `itemLastUpdated`; but `addDependency`, `removeDependency`,
`addCheckIn` and `updateSubItem` leave every item's `itemLastUpdated`
unchanged. -/
theorem C4_lastUpdated_spec (d : RoadmapData)
    (id f t lbl ttl sid now c ts nid clid clts : String) (u : ItemUpdates)
    (su : SubItemUpdates) (g1 g2 g3 g4 : String × String) :
    ((loadData d now).lastUpdated = now ∧
     (updateItem id u now g1 g2 g3 g4 d).lastUpdated = now ∧
     (deleteItem id now d).lastUpdated = now ∧
     (archiveItem id now c ts d).lastUpdated = now ∧
     (unarchiveItem id now c ts d).lastUpdated = now ∧
     (addDependency f t now d).lastUpdated = now ∧
     (removeDependency f t now d).lastUpdated = now ∧
     (addCheckIn id lbl c now d).lastUpdated = now ∧
     (addSubItem id ttl nid now clid clts d).lastUpdated = now ∧
     (updateSubItem id sid su now d).lastUpdated = now ∧
     (deleteSubStage id sid now d).lastUpdated = now) ∧
    ((addDependency f t now d).items.map (·.itemLastUpdated)
        = d.items.map (·.itemLastUpdated) ∧
     (removeDependency f t now d).items.map (·.itemLastUpdated)
        = d.items.map (·.itemLastUpdated) ∧
     (addCheckIn id lbl c now d).items.map (·.itemLastUpdated)
        = d.items.map (·.itemLastUpdated) ∧
     (updateSubItem id sid su now d).items.map (·.itemLastUpdated)
        = d.items.map (·.itemLastUpdated)) ∧
    ((updateItem id u now g1 g2 g3 g4 d).items.map (·.itemLastUpdated)
        = d.items.map (fun i => if i.id = id then some now
            else i.itemLastUpdated) ∧
     (archiveItem id now c ts d).items.map (·.itemLastUpdated)
        = d.items.map (fun i => if i.id = id then some now
            else i.itemLastUpdated) ∧
     (unarchiveItem id now c ts d).items.map (·.itemLastUpdated)
        = d.items.map (fun i => if i.id = id then some now
            else i.itemLastUpdated) ∧
     (addSubItem id ttl nid now clid clts d).items.map (·.itemLastUpdated)
        = d.items.map (fun i => if i.id = id then some now
            else i.itemLastUpdated)) := by
  refine ⟨⟨rfl, rfl, rfl, rfl, rfl, rfl, rfl, rfl, rfl, rfl, rfl⟩,
    ⟨?_, ?_, ?_, ?_⟩, ⟨?_, ?_, ?_, ?_⟩⟩
  · exact map_map_congr d.items _ _ _
      (fun i => addDependencyFn_itemLastUpdated f t i)
  · exact map_map_congr d.items _ _ _
      (fun i => removeDependencyFn_itemLastUpdated f t i)
  · refine map_map_congr d.items _ _ _ (fun i => ?_)
    by_cases h : i.id = id <;> simp [h]
  · refine map_map_congr d.items _ _ _ (fun i => ?_)
    by_cases h : i.id = id <;> simp [h]
  · exact map_map_congr d.items _ _ _
      (fun i => updateItemFn_itemLastUpdated id u now g1 g2 g3 g4 i)
  · exact map_map_congr d.items _ _ _
      (fun i => archiveItemFn_itemLastUpdated id now c ts i)
  · exact map_map_congr d.items _ _ _
      (fun i => unarchiveItemFn_itemLastUpdated id now c ts i)
  · refine map_map_congr d.items _ _ _ (fun i => ?_)
    by_cases h : i.id = id
    · rw [if_pos h]
      simp [if_neg (not_not_intro h)]
    · rw [if_neg h]
      simp [if_pos h]

/-! ## C2: bounded change log -/

theorem lastTwo_length_le {α : Type} (l : List α) : (lastTwo l).length ≤ 2 := by
  unfold lastTwo
  rw [List.length_drop]
  omega

theorem lastTwo_cons_of_two_le {α : Type} (a : α) (t : List α)
    (h : 2 ≤ t.length) : lastTwo (a :: t) = lastTwo t := by
  unfold lastTwo
  have he : (a :: t).length - 2 = (t.length - 2) + 1 := by
    rw [List.length_cons]
    omega
  rw [he, List.drop_succ_cons]

theorem lastTwo_append_singleton {α : Type} (l : List α) (e : α) :
    lastTwo (lastTwo l ++ [e]) = lastTwo (l ++ [e]) := by
  induction l with
  | nil => rfl
  | cons a t ih =>
    by_cases h : 2 ≤ t.length
    · rw [lastTwo_cons_of_two_le a t h, List.cons_append,
        lastTwo_cons_of_two_le a (t ++ [e])
          (by rw [List.length_append]; omega)]
      exact ih
    · cases t with
      | nil => rfl
      | cons b t2 =>
        cases t2 with
        | nil => rfl
        | cons c t3 =>
          simp [List.length_cons] at h

theorem lastTwo_append_of_two_le {α : Type} (l r : List α)
    (h : 2 ≤ r.length) : lastTwo (l ++ r) = lastTwo r := by
  unfold lastTwo
  rw [List.length_append]
  have he : l.length + r.length - 2 = l.length + (r.length - 2) := by omega
  rw [he, List.drop_append]

/-- The change log after any nonempty sequence of `addChangeLog` calls is
the last two elements of the original log extended by all appended
entries. -/
theorem applyLogCalls_changeLog (item : RoadmapItem)
    (calls : List ChangeLogEntry) (h : calls ≠ []) :
    (applyLogCalls item calls).changeLog
      = some (lastTwo (item.changeLog.getD [] ++ calls)) := by
  induction calls using List.reverseRecOn with
  | nil => exact absurd rfl h
  | append_singleton cs e ih =>
    have hstep : applyLogCalls item (cs ++ [e])
        = addChangeLog (applyLogCalls item cs) e.type e.description
            e.metadata e.id e.timestamp := by
      simp [applyLogCalls, List.foldl_append]
    by_cases hcs : cs = []
    · subst hcs
      simp [applyLogCalls, addChangeLog]
    · rw [hstep]
      show some (lastTwo ((applyLogCalls item cs).changeLog.getD [] ++ [e]))
        = some (lastTwo (item.changeLog.getD [] ++ (cs ++ [e])))
      rw [ih hcs, Option.getD_some, lastTwo_append_singleton,
        List.append_assoc]

/-- C2: after every nonempty sequence of change-log appends to an item, the
item's `changeLog` has length at most 2, and whenever at least 2 entries
were appended, the log holds exactly the 2 most recently appended entries
in append order. -/
theorem C2_changeLog_bound (item : RoadmapItem) (calls : List ChangeLogEntry)
    (h : calls ≠ []) :
    ((applyLogCalls item calls).changeLog.getD []).length ≤ 2 ∧
    (2 ≤ calls.length →
      (applyLogCalls item calls).changeLog
        = some (calls.drop (calls.length - 2))) := by
  constructor
  · rw [applyLogCalls_changeLog item calls h, Option.getD_some]
    exact lastTwo_length_le _
  · intro h2
    rw [applyLogCalls_changeLog item calls h, lastTwo_append_of_two_le _ _ h2]
    rfl

/-- C2 witness: three appends to the concrete item `x1` keep only the last
two entries, in order. -/
theorem C2_changeLog_bound_witness :
    ([e1, e2, e3] : List ChangeLogEntry) ≠ [] ∧
    ((applyLogCalls x1 [e1, e2, e3]).changeLog.getD []).length ≤ 2 ∧
    (applyLogCalls x1 [e1, e2, e3]).changeLog = some [e2, e3] :=
  ⟨by decide, (C2_changeLog_bound x1 [e1, e2, e3] (by decide)).1,
    (C2_changeLog_bound x1 [e1, e2, e3] (by decide)).2 (by decide)⟩

/-! ## C1: dependency symmetry -/

theorem mem_optFilter (o : Option (List String)) (q x : String) :
    x ∈ (o.map (List.filter (fun y => y ≠ q))).getD [] ↔
      x ∈ o.getD [] ∧ x ≠ q := by
  cases o <;> simp [List.mem_filter]

theorem addDependencyFn_id (f t : String) (i : RoadmapItem) :
    (addDependencyFn f t i).id = i.id := by
  unfold addDependencyFn
  split_ifs <;> rfl

theorem addDependencyFn_dep_of_from (f t : String) (i : RoadmapItem)
    (hft : f ≠ t) (h : i.id = f) (x : String) :
    x ∈ (addDependencyFn f t i).dependsOn.getD [] ↔
      x ∈ i.dependsOn.getD [] ∨ x = t := by
  unfold addDependencyFn
  by_cases hmem : t ∈ i.dependsOn.getD []
  · rw [if_neg (fun hc => hc.2 hmem),
      if_neg (fun hc => hft (h.symm.trans hc.1))]
    exact ⟨Or.inl, fun hx => hx.elim id (fun he => he ▸ hmem)⟩
  · rw [if_pos ⟨h, hmem⟩]
    simp

theorem addDependencyFn_en_of_from (f t : String) (i : RoadmapItem)
    (hft : f ≠ t) (h : i.id = f) :
    (addDependencyFn f t i).enables = i.enables := by
  unfold addDependencyFn
  split_ifs with h1 h2
  · rfl
  · exact absurd (h.symm.trans h2.1) hft
  · rfl

theorem addDependencyFn_en_of_to (f t : String) (i : RoadmapItem)
    (hft : f ≠ t) (h : i.id = t) (x : String) :
    x ∈ (addDependencyFn f t i).enables.getD [] ↔
      x ∈ i.enables.getD [] ∨ x = f := by
  unfold addDependencyFn
  rw [if_neg (fun hc => hft (hc.1.symm.trans h))]
  by_cases hmem : f ∈ i.enables.getD []
  · rw [if_neg (fun hc => hc.2 hmem)]
    exact ⟨Or.inl, fun hx => hx.elim id (fun he => he ▸ hmem)⟩
  · rw [if_pos ⟨h, hmem⟩]
    simp

theorem addDependencyFn_dep_of_to (f t : String) (i : RoadmapItem)
    (hft : f ≠ t) (h : i.id = t) :
    (addDependencyFn f t i).dependsOn = i.dependsOn := by
  unfold addDependencyFn
  split_ifs with h1 h2
  · exact absurd (h1.1.symm.trans h) hft
  · rfl
  · rfl

theorem addDependencyFn_dep_other (f t : String) (i : RoadmapItem)
    (h : i.id ≠ f) : (addDependencyFn f t i).dependsOn = i.dependsOn := by
  unfold addDependencyFn
  split_ifs with h1 h2
  · exact absurd h1.1 h
  · rfl
  · rfl

theorem addDependencyFn_en_other (f t : String) (i : RoadmapItem)
    (h : i.id ≠ t) : (addDependencyFn f t i).enables = i.enables := by
  unfold addDependencyFn
  split_ifs with h1 h2
  · rfl
  · exact absurd h2.1 h
  · rfl

theorem depSym_addDependency (f t now : String) (hft : f ≠ t)
    (d : RoadmapData) (h : depSym d) : depSym (addDependency f t now d) := by
  intro A' hA' B' hB'
  simp only [addDependency, List.mem_map] at hA' hB'
  obtain ⟨A, hA, rfl⟩ := hA'
  obtain ⟨B, hB, rfl⟩ := hB'
  rw [addDependencyFn_id f t A, addDependencyFn_id f t B]
  by_cases hAf : A.id = f
  · rw [addDependencyFn_dep_of_from f t A hft hAf B.id]
    by_cases hBt : B.id = t
    · rw [addDependencyFn_en_of_to f t B hft hBt A.id]
      exact iff_of_true (Or.inr hBt) (Or.inr hAf)
    · rw [addDependencyFn_en_other f t B hBt, or_iff_left hBt]
      exact h A hA B hB
  · rw [addDependencyFn_dep_other f t A hAf]
    by_cases hBt : B.id = t
    · rw [addDependencyFn_en_of_to f t B hft hBt A.id, or_iff_left hAf]
      exact h A hA B hB
    · rw [addDependencyFn_en_other f t B hBt]
      exact h A hA B hB

theorem removeDependencyFn_id (f t : String) (i : RoadmapItem) :
    (removeDependencyFn f t i).id = i.id := by
  unfold removeDependencyFn
  split_ifs <;> rfl

theorem removeDependencyFn_dep_of_from (f t : String) (i : RoadmapItem)
    (h : i.id = f) (x : String) :
    x ∈ (removeDependencyFn f t i).dependsOn.getD [] ↔
      x ∈ i.dependsOn.getD [] ∧ x ≠ t := by
  unfold removeDependencyFn
  rw [if_pos h]
  exact mem_optFilter i.dependsOn t x

theorem removeDependencyFn_en_of_to (f t : String) (i : RoadmapItem)
    (hft : f ≠ t) (h : i.id = t) (x : String) :
    x ∈ (removeDependencyFn f t i).enables.getD [] ↔
      x ∈ i.enables.getD [] ∧ x ≠ f := by
  unfold removeDependencyFn
  rw [if_neg (fun hc => hft (hc.symm.trans h)), if_pos h]
  exact mem_optFilter i.enables f x

theorem removeDependencyFn_dep_other (f t : String) (i : RoadmapItem)
    (h : i.id ≠ f) : (removeDependencyFn f t i).dependsOn = i.dependsOn := by
  unfold removeDependencyFn
  rw [if_neg h]
  split_ifs <;> rfl

theorem removeDependencyFn_en_other (f t : String) (i : RoadmapItem)
    (h : i.id ≠ t) : (removeDependencyFn f t i).enables = i.enables := by
  unfold removeDependencyFn
  by_cases h1 : i.id = f
  · rw [if_pos h1]
  · rw [if_neg h1, if_neg h]

theorem depSym_removeDependency (f t now : String) (hft : f ≠ t)
    (d : RoadmapData) (h : depSym d) : depSym (removeDependency f t now d) := by
  intro A' hA' B' hB'
  simp only [removeDependency, List.mem_map] at hA' hB'
  obtain ⟨A, hA, rfl⟩ := hA'
  obtain ⟨B, hB, rfl⟩ := hB'
  rw [removeDependencyFn_id f t A, removeDependencyFn_id f t B]
  by_cases hAf : A.id = f
  · rw [removeDependencyFn_dep_of_from f t A hAf B.id]
    by_cases hBt : B.id = t
    · rw [removeDependencyFn_en_of_to f t B hft hBt A.id]
      constructor
      · rintro ⟨-, hne⟩
        exact absurd hBt hne
      · rintro ⟨-, hne⟩
        exact absurd hAf hne
    · rw [removeDependencyFn_en_other f t B hBt, and_iff_left hBt]
      exact h A hA B hB
  · rw [removeDependencyFn_dep_other f t A hAf]
    by_cases hBt : B.id = t
    · rw [removeDependencyFn_en_of_to f t B hft hBt A.id, and_iff_left hAf]
      exact h A hA B hB
    · rw [removeDependencyFn_en_other f t B hBt]
      exact h A hA B hB

theorem depSym_deleteItem (del now : String) (d : RoadmapData)
    (h : depSym d) : depSym (deleteItem del now d) := by
  intro A' hA' B' hB'
  simp only [deleteItem, List.mem_map, List.mem_filter,
    decide_eq_true_eq] at hA' hB'
  obtain ⟨A, ⟨hA, hAne⟩, rfl⟩ := hA'
  obtain ⟨B, ⟨hB, hBne⟩, rfl⟩ := hB'
  show B.id ∈ (A.dependsOn.map (List.filter (fun dep => dep ≠ del))).getD [] ↔
    A.id ∈ (B.enables.map (List.filter (fun e => e ≠ del))).getD []
  rw [mem_optFilter A.dependsOn del B.id, mem_optFilter B.enables del A.id,
    and_iff_left hBne, and_iff_left hAne]
  exact h A hA B hB

theorem depSym_step (op : DepOp) (now : String) (hop : op.valid)
    (d : RoadmapData) (h : depSym d) : depSym (op.step now d) := by
  cases op with
  | addDep f t => exact depSym_addDependency f t now hop d h
  | removeDep f t => exact depSym_removeDependency f t now hop d h
  | delItem id => exact depSym_deleteItem id now d h

/-- C1 (amended): starting from a document in which the dependency symmetry
`B.id ∈ A.dependsOn ⟺ A.id ∈ B.enables` holds, any sequence of
`addDependency` / `removeDependency` / `deleteItem` calls whose dependency
calls have distinct endpoints (`fromId ≠ toId`) preserves the symmetry; as
every prefix of such a sequence is itself such a sequence, the symmetry
holds at every observable point.  (A self-call `addDependency(x, x)`
updates only one side of the pair and breaks the symmetry — see the
counterexample.) -/
theorem C1_dep_symmetry (d : RoadmapData) (ops : List (DepOp × String))
    (hd : depSym d) (hops : ∀ p ∈ ops, p.1.valid) : depSym (runOps d ops) := by
  induction ops generalizing d with
  | nil => exact hd
  | cons p rest ih =>
    rw [runOps, List.foldl_cons]
    exact ih (p.1.step p.2 d)
      (depSym_step p.1 p.2 (hops p (List.mem_cons_self p rest)) d hd)
      (fun q hq => hops q (List.mem_cons_of_mem p hq))

/-- C1 counterexample: the symmetry holds in `docC1`, and the single
self-call `addDependency("x", "x")` breaks it (`x` is added to its own
`dependsOn` but not to its own `enables`). -/
theorem C1_counterexample :
    depSym docC1 ∧ ¬ depSym (runOps docC1 [(DepOp.addDep "x" "x", "t1")]) :=
  ⟨by decide, by decide⟩

/-- C1 witness: a concrete valid call sequence on a concrete symmetric
document. -/
theorem C1_dep_symmetry_witness :
    depSym docSym ∧ depSym (runOps docSym opsW) :=
  ⟨by decide, C1_dep_symmetry docSym opsW (by decide) (by decide)⟩

/-! ## C9: export / import round trip -/

@[simp]
theorem lookup_jopt_ne (k k' : String) (o : Option Json)
    (rest : List (String × Json)) (h : (k == k') = false) :
    (jopt k' o ++ rest).lookup k = rest.lookup k := by
  cases o <;> simp [jopt, List.lookup, h]

@[simp]
theorem lookup_jopt_eq (k : String) (o : Option Json)
    (rest : List (String × Json)) (h : rest.lookup k = none) :
    (jopt k o ++ rest).lookup k = o := by
  cases o <;> simp [jopt, List.lookup, h]

@[simp]
theorem lookup_jopt_final_ne (k k' : String) (o : Option Json)
    (h : (k == k') = false) : (jopt k' o).lookup k = none := by
  cases o <;> simp [jopt, List.lookup, h]

@[simp]
theorem lookup_jopt_final_eq (k : String) (o : Option Json) :
    (jopt k o).lookup k = o := by
  cases o <;> simp [jopt, List.lookup]

@[simp]
theorem asStr_str (s : String) : asStr (.str s) = some s := rfl

@[simp]
theorem asInt_num (n : Int) : asInt (.num n) = some n := rfl

@[simp]
theorem asBool_bool (b : Bool) : asBool (.bool b) = some b := rfl

@[simp]
theorem decodeOptField_map {α : Type} (dec : Json → Option α)
    (enc : α → Json) (o : Option α) (h : ∀ a, dec (enc a) = some a) :
    decodeOptField (o.map enc) dec = some o := by
  cases o <;> simp [decodeOptField, h]

@[simp]
theorem decStage_enc (s : Stage) : decStage (encStage s) = some s := by
  cases s <;> rfl

@[simp]
theorem decItemType_enc (t : ItemType) : decItemType (encItemType t) = some t := by
  cases t <;> rfl

@[simp]
theorem decBlockerStatus_enc (b : BlockerStatus) :
    decBlockerStatus (encBlockerStatus b) = some b := by
  cases b <;> rfl

@[simp]
theorem decSubViewType_enc (v : SubViewType) :
    decSubViewType (encSubViewType v) = some v := by
  cases v <;> rfl

@[simp]
theorem decPriority_enc (p : Priority) : decPriority (encPriority p) = some p := by
  cases p <;> rfl

@[simp]
theorem decLinkType_enc (t : LinkType) : decLinkType (encLinkType t) = some t := by
  cases t <;> rfl

@[simp]
theorem decChangeType_enc (c : ChangeType) :
    decChangeType (encChangeType c) = some c := by
  cases c <;> rfl

@[simp]
theorem decList_enc {α : Type} (dec : Json → Option α) (enc : α → Json)
    (h : ∀ a, dec (enc a) = some a) (l : List α) :
    decList dec (encList enc l) = some l := by
  show decListAux dec (l.map enc) = some l
  induction l with
  | nil => rfl
  | cons a t ih => simp [decListAux, h, ih]

@[simp]
theorem decStatusTag_enc (t : StatusTag) :
    decStatusTag (encStatusTag t) = some t := by
  obtain ⟨id, label, color⟩ := t
  simp [encStatusTag, decStatusTag, reqF]

@[simp]
theorem decSubStage_enc (s : SubStage) :
    decSubStage (encSubStage s) = some s := by
  obtain ⟨id, label, order⟩ := s
  simp [encSubStage, decSubStage, reqF]

@[simp]
theorem decSubSwimlane_enc (s : SubSwimlane) :
    decSubSwimlane (encSubSwimlane s) = some s := by
  obtain ⟨id, name, color, order⟩ := s
  simp [encSubSwimlane, decSubSwimlane, reqF]

@[simp]
theorem decExternalLink_enc (l : ExternalLink) :
    decExternalLink (encExternalLink l) = some l := by
  obtain ⟨id, url, label, type⟩ := l
  simp [encExternalLink, decExternalLink, reqF, optF]

@[simp]
theorem decCheckIn_enc (c : CheckIn) : decCheckIn (encCheckIn c) = some c := by
  obtain ⟨id, label, completed⟩ := c
  simp [encCheckIn, decCheckIn, reqF]

@[simp]
theorem decSubItem_enc (s : SubItem) : decSubItem (encSubItem s) = some s := by
  obtain ⟨id, title, description, completed, priority, statusTagId,
    subStageId, subSwimlaneId, order, links⟩ := s
  simp [encSubItem, decSubItem, reqF, optF]

@[simp]
theorem decSubItemConfig_enc (c : SubItemConfig) :
    decSubItemConfig (encSubItemConfig c) = some c := by
  obtain ⟨viewType, customStages, customSwimlanes, customStatusTags⟩ := c
  simp [encSubItemConfig, decSubItemConfig, reqF, optF]

@[simp]
theorem decChangeLogMetadata_enc (m : ChangeLogMetadata) :
    decChangeLogMetadata (encChangeLogMetadata m) = some m := by
  obtain ⟨fromValue, toValue, linkLabel, subItemTitle⟩ := m
  simp [encChangeLogMetadata, decChangeLogMetadata, optF]

@[simp]
theorem decChangeLogEntry_enc (e : ChangeLogEntry) :
    decChangeLogEntry (encChangeLogEntry e) = some e := by
  obtain ⟨id, type, timestamp, description, metadata⟩ := e
  simp [encChangeLogEntry, decChangeLogEntry, reqF, optF]

@[simp]
theorem decRoadmapItem_enc (i : RoadmapItem) :
    decRoadmapItem (encRoadmapItem i) = some i := by
  obtain ⟨id, type, title, description, stage, swimlaneId, reportedDate,
    targetDate, checkIns, blockerStatus, dependsOn, enables, links,
    outputIds, completed, order, isWin, archived, subItems, subItemConfig,
    itemLastUpdated, changeLog⟩ := i
  simp [encRoadmapItem, decRoadmapItem, decItemFieldsA, decItemFieldsB,
    reqF, optF]

@[simp]
theorem decSwimlane_enc (s : Swimlane) : decSwimlane (encSwimlane s) = some s := by
  obtain ⟨id, name, color, order⟩ := s
  simp [encSwimlane, decSwimlane, reqF]

@[simp]
theorem decRoadmapData_enc (d : RoadmapData) :
    decRoadmapData (encRoadmapData d) = some d := by
  obtain ⟨title, lastUpdated, swimlanes, items⟩ := d
  simp [encRoadmapData, decRoadmapData, reqF]

/-- C9: parsing the exported document back (modelled at the JSON-tree level)
and running `loadData` on it yields a document deep-equal to the exported
one in every field — title, swimlanes, items with all nested sub-items,
configs and change logs — except `lastUpdated`, which `loadData` refreshes
to the time of the call. -/
theorem C9_export_import_roundtrip (d : RoadmapData) (now : String) :
    (decRoadmapData (exportData d)).map (fun parsed => loadData parsed now)
      = some { d with lastUpdated := now } := by
  rw [exportData, decRoadmapData_enc]
  rfl

end Roadmap
